import Mathlib

/-!
Verification of the context compaction policy `determineEditStrategies`
from `src/app/protected/layout.tsx`.

The function is a pure decision procedure: given the session token counts,
the message list and an optional threshold configuration, it returns a list
of edit strategies (compaction directives).  We embed each type and the
function itself directly from the TypeScript source and prove the spec
properties about them.
-/

/-- Embeds TokenCounts — `{ total_tokens: number }` from the source.
TypeScript numbers carrying token counts are integers; we model them as
`Int` so that negative (misconfigured) values stay representable. -/
structure TokenCounts where
  total_tokens : Int
deriving DecidableEq, Repr

/-- Embeds EditStrategy — tagged union from the source: one of `token_limit`,
`remove_tool_result`, `remove_tool_call_params`, with the parameter bags
carried by each variant. -/
inductive EditStrategy where
  | token_limit (limit_tokens : Int)
  | remove_tool_result (keep_recent_n_tool_results : Int)
      (tool_result_placeholder : String)
  | remove_tool_call_params (keep_recent_n_tool_calls : Int)
deriving DecidableEq, Repr

/-- The value of the toolCalls (unknown-typed) field of a message, classified by
how `determineEditStrategies` inspects it: `if (msg.toolCalls)` (truthiness)
then `Array.isArray(msg.toolCalls) ? msg.toolCalls : [msg.toolCalls]`.
The four classes with distinct behaviour are: field absent, field present
but falsy, an array of some length (arrays are truthy, even when empty),
and a truthy non-array value. -/
inductive ToolCallsField where
  | absent
  | falsy
  | arr (n : Nat)
  | truthyNonArray
deriving DecidableEq, Repr

/-- Decision-relevant projection of a message:
`{ role: string; toolCalls?: unknown }` from the source signature. -/
structure Message where
  role : String
  toolCalls : ToolCallsField
deriving DecidableEq, Repr

/-- The optional config parameter of `determineEditStrategies`; each field
is optional and is merged against a documented default with `??`. -/
structure Config where
  tokenLimitThreshold : Option Int
  tokenLimitTarget : Option Int
  toolResultThreshold : Option Int
  toolCallThreshold : Option Int
deriving DecidableEq, Repr

/-- Effective threshold: config?.tokenLimitThreshold ?? 80000 in the source. -/
def effTokenLimitThreshold (config : Option Config) : Int :=
  (config.bind Config.tokenLimitThreshold).getD 80000

/-- Effective target: config?.tokenLimitTarget ?? 70000 in the source. -/
def effTokenLimitTarget (config : Option Config) : Int :=
  (config.bind Config.tokenLimitTarget).getD 70000

/-- Effective threshold: config?.toolResultThreshold ?? 5 in the source. -/
def effToolResultThreshold (config : Option Config) : Int :=
  (config.bind Config.toolResultThreshold).getD 5

/-- Effective threshold: config?.toolCallThreshold ?? 10 in the source. -/
def effToolCallThreshold (config : Option Config) : Int :=
  (config.bind Config.toolCallThreshold).getD 10

/-- Contribution of one message toolCalls field to toolCallCount:
`if (msg.toolCalls) { const toolCalls = Array.isArray(msg.toolCalls) ?
msg.toolCalls : [msg.toolCalls]; toolCallCount += toolCalls.length; }`. -/
def toolCallContribution : ToolCallsField → Nat
  | ToolCallsField.absent => 0
  | ToolCallsField.falsy => 0
  | ToolCallsField.arr n => n
  | ToolCallsField.truthyNonArray => 1

/-- The toolCallCount accumulated by the `for (const msg of messages)`
loop of the source. -/
def countToolCalls (messages : List Message) : Nat :=
  messages.foldl (fun acc m => acc + toolCallContribution m.toolCalls) 0

/-- The toolResultCount accumulated by the same loop:
`if (msg.role === "tool") { toolResultCount++; }`. -/
def countToolResults (messages : List Message) : Nat :=
  messages.foldl (fun acc m => if m.role == "tool" then acc + 1 else acc) 0

/-- Computes Math.max(3, Math.floor(t / 2)) on an integer threshold t:
JavaScript `/` is exact division and `Math.floor` floors, which on integers
is floor division `Int.fdiv`. -/
def keepRecent (t : Int) : Int :=
  max 3 (Int.fdiv t 2)

/-- Embeds determineEditStrategies from src/app/protected/layout.tsx,
translated clause by clause: the early return on missing or zero token
counts, the counting loop, then the three guarded pushes, where each later
push requires `strategies.length === 0`. -/
def determineEditStrategies (tokenCounts : Option TokenCounts)
    (messages : List Message) (config : Option Config) : List EditStrategy :=
  let tokenLimitThreshold := effTokenLimitThreshold config
  let tokenLimitTarget := effTokenLimitTarget config
  let toolResultThreshold := effToolResultThreshold config
  let toolCallThreshold := effToolCallThreshold config
  match tokenCounts with
  | none => []
  | some tc =>
    if tc.total_tokens = 0 then []
    else
      let toolCallCount := countToolCalls messages
      let toolResultCount := countToolResults messages
      let strategies1 : List EditStrategy :=
        if tc.total_tokens > tokenLimitThreshold then
          [EditStrategy.token_limit tokenLimitTarget]
        else []
      let strategies2 : List EditStrategy :=
        if (toolResultCount : Int) > toolResultThreshold ∧
            strategies1.length = 0 then
          strategies1 ++
            [EditStrategy.remove_tool_result (keepRecent toolResultThreshold)
              "Done"]
        else strategies1
      let strategies3 : List EditStrategy :=
        if (toolCallCount : Int) > toolCallThreshold ∧
            strategies2.length = 0 then
          strategies2 ++
            [EditStrategy.remove_tool_call_params
              (keepRecent toolCallThreshold)]
        else strategies2
      strategies3

example :
    determineEditStrategies (some ⟨1000⟩)
      (List.replicate 6 ⟨"tool", ToolCallsField.absent⟩) none =
      [EditStrategy.remove_tool_result 3 "Done"] := by decide

example :
    determineEditStrategies (some ⟨1000⟩)
      [⟨"assistant", ToolCallsField.arr 12⟩, ⟨"tool", ToolCallsField.absent⟩,
       ⟨"tool", ToolCallsField.absent⟩] none =
      [EditStrategy.remove_tool_call_params 5] := by decide

example :
    determineEditStrategies (some ⟨100000⟩)
      (List.replicate 6 ⟨"tool", ToolCallsField.arr 12⟩) none =
      [EditStrategy.token_limit 70000] := by decide

example :
    determineEditStrategies (some ⟨0⟩)
      (List.replicate 6 ⟨"tool", ToolCallsField.absent⟩) none = [] := by decide

example :
    determineEditStrategies (some ⟨500⟩)
      [⟨"tool", ToolCallsField.arr 2⟩] none = [] := by decide

/-- Helper: the counting loop computes the sum of per-message
contributions. -/
theorem countToolCalls_eq_sum (messages : List Message) :
    countToolCalls messages =
      (messages.map (fun m => toolCallContribution m.toolCalls)).sum := by
  have key : ∀ (l : List Message) (a : Nat),
      l.foldl (fun acc m => acc + toolCallContribution m.toolCalls) a =
        a + (l.map (fun m => toolCallContribution m.toolCalls)).sum := by
    intro l
    induction l with
    | nil => intro a; simp
    | cons m rest ih =>
      intro a
      simp [List.foldl_cons, ih, Nat.add_assoc]
  simpa using key messages 0

/-- Helper: the tool-result counter is the length of the filter on
role equal to tool. -/
theorem countToolResults_eq_filter (messages : List Message) :
    countToolResults messages =
      (messages.filter (fun m => m.role == "tool")).length := by
  have key : ∀ (l : List Message) (a : Nat),
      l.foldl (fun acc m => if m.role == "tool" then acc + 1 else acc) a =
        a + (l.filter (fun m => m.role == "tool")).length := by
    intro l
    induction l with
    | nil => intro a; simp
    | cons m rest ih =>
      intro a
      rw [List.foldl_cons, List.filter_cons]
      by_cases h : m.role == "tool"
      · rw [if_pos h, if_pos h, ih, List.length_cons]
        omega
      · rw [if_neg h, if_neg h, ih]
  rw [countToolResults, key, Nat.zero_add]

/-- Helper: on a present token count, the accumulated push structure of the
source collapses to a first-match-wins chain of four guarded results. -/
theorem determineEditStrategies_some_eq (tc : TokenCounts)
    (messages : List Message) (config : Option Config) :
    determineEditStrategies (some tc) messages config =
      if tc.total_tokens = 0 then []
      else if tc.total_tokens > effTokenLimitThreshold config then
        [EditStrategy.token_limit (effTokenLimitTarget config)]
      else if (countToolResults messages : Int) >
          effToolResultThreshold config then
        [EditStrategy.remove_tool_result
          (keepRecent (effToolResultThreshold config)) "Done"]
      else if (countToolCalls messages : Int) >
          effToolCallThreshold config then
        [EditStrategy.remove_tool_call_params
          (keepRecent (effToolCallThreshold config))]
      else [] := by
  simp only [determineEditStrategies]
  split_ifs <;> simp_all

/-- Helper: unfolding one step of the tool-call counting loop. -/
theorem countToolCalls_cons (m : Message) (rest : List Message) :
    countToolCalls (m :: rest) =
      toolCallContribution m.toolCalls + countToolCalls rest := by
  rw [countToolCalls_eq_sum, countToolCalls_eq_sum, List.map_cons,
    List.sum_cons]

/-- C1 (counterexample): with a malformed configuration whose
tokenLimitThreshold is -1, a present usage with total_tokens = 0 satisfies
total_tokens > tokenLimitThreshold, yet the function returns [] because of
the zero-token early return, not the claimed singleton TokenLimit list. -/
theorem tokenLimit_priority_counterexample :
    (0 : Int) >
      effTokenLimitThreshold (some ⟨some (-1), some 70000, none, none⟩) ∧
    determineEditStrategies (some ⟨0⟩) []
      (some ⟨some (-1), some 70000, none, none⟩) = [] ∧
    ([] : List EditStrategy) ≠
      [EditStrategy.token_limit
        (effTokenLimitTarget (some ⟨some (-1), some 70000, none, none⟩))] := by
  decide

/-- C1 (amended): for every configuration and message list, if usage is
present, its total_tokens is nonzero, and total_tokens exceeds the effective
tokenLimitThreshold, the result is exactly the one-element list
TokenLimit with the effective tokenLimitTarget, regardless of the
tool-result and tool-call counts in the messages. -/
theorem tokenLimit_priority (tc : TokenCounts) (messages : List Message)
    (config : Option Config) (hnz : tc.total_tokens ≠ 0)
    (h : tc.total_tokens > effTokenLimitThreshold config) :
    determineEditStrategies (some tc) messages config =
      [EditStrategy.token_limit (effTokenLimitTarget config)] := by
  rw [determineEditStrategies_some_eq, if_neg hnz, if_pos h]

/-- C1 witness: a concrete triggering instance of the amended theorem. -/
theorem tokenLimit_priority_witness :
    determineEditStrategies (some ⟨100000⟩)
      (List.replicate 6 ⟨"tool", ToolCallsField.arr 12⟩) none =
      [EditStrategy.token_limit 70000] :=
  tokenLimit_priority ⟨100000⟩
    (List.replicate 6 ⟨"tool", ToolCallsField.arr 12⟩) none
    (by decide) (by decide)

/-- C2: for every usage, message list and configuration, the returned list
of strategies has length at most 1. -/
theorem strategies_length_le_one (tokenCounts : Option TokenCounts)
    (messages : List Message) (config : Option Config) :
    (determineEditStrategies tokenCounts messages config).length ≤ 1 := by
  cases tokenCounts with
  | none => simp [determineEditStrategies]
  | some tc =>
    rw [determineEditStrategies_some_eq]
    split_ifs <;> simp

/-- C3: for every message list and configuration, the result is [] when
usage is absent, and also when usage is present with total_tokens = 0; the
no-signal case is a defined, non-failing branch. -/
theorem no_signal_no_op (messages : List Message) (config : Option Config) :
    determineEditStrategies none messages config = [] ∧
    determineEditStrategies (some ⟨0⟩) messages config = [] := by
  refine ⟨rfl, ?_⟩
  rw [determineEditStrategies_some_eq]
  simp

/-- C4 (counterexample): with usage present but total_tokens = 0 (which
does not exceed the default threshold 80000) and 6 tool-role messages
(above the default threshold 5), the function returns [] because of the
zero-token early return, not the claimed RemoveToolResults singleton. -/
theorem removeToolResults_trigger_counterexample :
    (0 : Int) ≤ effTokenLimitThreshold none ∧
    (countToolResults (List.replicate 6 ⟨"tool", ToolCallsField.absent⟩) :
      Int) > effToolResultThreshold none ∧
    determineEditStrategies (some ⟨0⟩)
      (List.replicate 6 ⟨"tool", ToolCallsField.absent⟩) none = [] ∧
    ([] : List EditStrategy) ≠
      [EditStrategy.remove_tool_result 3 "Done"] := by
  decide

/-- C4 (amended): if usage is present with nonzero total_tokens not
exceeding the effective tokenLimitThreshold, and the tool-role message
count exceeds the effective toolResultThreshold, the result is exactly
RemoveToolResults with keepRecentCount max(3, floor(threshold / 2)) and
placeholder Done. -/
theorem removeToolResults_trigger (tc : TokenCounts)
    (messages : List Message) (config : Option Config)
    (hnz : tc.total_tokens ≠ 0)
    (hle : tc.total_tokens ≤ effTokenLimitThreshold config)
    (htr : (countToolResults messages : Int) >
      effToolResultThreshold config) :
    determineEditStrategies (some tc) messages config =
      [EditStrategy.remove_tool_result
        (keepRecent (effToolResultThreshold config)) "Done"] := by
  rw [determineEditStrategies_some_eq, if_neg hnz,
    if_neg (not_lt.mpr hle), if_pos htr]

/-- C4 witness: the particular case of the claim — total_tokens = 1000,
default thresholds, 6 tool-role messages — yields
RemoveToolResults with keepRecentCount 3 and placeholder Done. -/
theorem removeToolResults_trigger_witness :
    determineEditStrategies (some ⟨1000⟩)
      (List.replicate 6 ⟨"tool", ToolCallsField.absent⟩) none =
      [EditStrategy.remove_tool_result 3 "Done"] :=
  removeToolResults_trigger ⟨1000⟩
    (List.replicate 6 ⟨"tool", ToolCallsField.absent⟩) none
    (by decide) (by decide) (by decide)

/-- C5 (counterexample): with usage present but total_tokens = 0, 2
tool-role messages (at most the default threshold 5) and 12 tool-call
entries (above the default threshold 10), the function returns [] because
of the zero-token early return, not the claimed RemoveToolCallParams
singleton. -/
theorem removeToolCallParams_trigger_counterexample :
    (0 : Int) ≤ effTokenLimitThreshold none ∧
    (countToolResults [⟨"assistant", ToolCallsField.arr 12⟩,
      ⟨"tool", ToolCallsField.absent⟩, ⟨"tool", ToolCallsField.absent⟩] :
      Int) ≤ effToolResultThreshold none ∧
    (countToolCalls [⟨"assistant", ToolCallsField.arr 12⟩,
      ⟨"tool", ToolCallsField.absent⟩, ⟨"tool", ToolCallsField.absent⟩] :
      Int) > effToolCallThreshold none ∧
    determineEditStrategies (some ⟨0⟩)
      [⟨"assistant", ToolCallsField.arr 12⟩, ⟨"tool", ToolCallsField.absent⟩,
        ⟨"tool", ToolCallsField.absent⟩] none = [] ∧
    ([] : List EditStrategy) ≠
      [EditStrategy.remove_tool_call_params 5] := by
  decide

/-- C5 (amended): if usage is present with nonzero total_tokens not
exceeding the effective tokenLimitThreshold, the tool-role message count
does not exceed the effective toolResultThreshold, and the total tool-call
entry count exceeds the effective toolCallThreshold, the result is exactly
RemoveToolCallParams with keepRecentCount max(3, floor(threshold / 2)). -/
theorem removeToolCallParams_trigger (tc : TokenCounts)
    (messages : List Message) (config : Option Config)
    (hnz : tc.total_tokens ≠ 0)
    (hle : tc.total_tokens ≤ effTokenLimitThreshold config)
    (hres : (countToolResults messages : Int) ≤
      effToolResultThreshold config)
    (hcall : (countToolCalls messages : Int) >
      effToolCallThreshold config) :
    determineEditStrategies (some tc) messages config =
      [EditStrategy.remove_tool_call_params
        (keepRecent (effToolCallThreshold config))] := by
  rw [determineEditStrategies_some_eq, if_neg hnz,
    if_neg (not_lt.mpr hle), if_neg (not_lt.mpr hres), if_pos hcall]

/-- C5 witness: the particular case of the claim — total_tokens = 1000,
default thresholds, 2 tool-role messages and 12 tool-call entries —
yields RemoveToolCallParams with keepRecentCount 5. -/
theorem removeToolCallParams_trigger_witness :
    determineEditStrategies (some ⟨1000⟩)
      [⟨"assistant", ToolCallsField.arr 12⟩, ⟨"tool", ToolCallsField.absent⟩,
        ⟨"tool", ToolCallsField.absent⟩] none =
      [EditStrategy.remove_tool_call_params 5] :=
  removeToolCallParams_trigger ⟨1000⟩
    [⟨"assistant", ToolCallsField.arr 12⟩, ⟨"tool", ToolCallsField.absent⟩,
      ⟨"tool", ToolCallsField.absent⟩] none
    (by decide) (by decide) (by decide) (by decide)

/-- Fills every omitted configuration field with its documented default:
tokenLimitThreshold 80000, tokenLimitTarget 70000, toolResultThreshold 5,
toolCallThreshold 10; provided fields are kept unchanged. -/
def fillDefaults (config : Option Config) : Config :=
  ⟨some (effTokenLimitThreshold config), some (effTokenLimitTarget config),
   some (effToolResultThreshold config), some (effToolCallThreshold config)⟩

/-- C6: for every usage, message list and configuration (any subset of the
four fields may be omitted), the function behaves exactly as if each
omitted field had its documented default: the result is unchanged when the
configuration is replaced by its fully-defaulted completion. -/
theorem config_defaults_merge (tokenCounts : Option TokenCounts)
    (messages : List Message) (config : Option Config) :
    determineEditStrategies tokenCounts messages config =
      determineEditStrategies tokenCounts messages
        (some (fillDefaults config)) := by
  cases tokenCounts <;> rfl

/-- C7: any RemoveToolResults directive in the result carries
keepRecentCount equal to max(3, floor(toolResultThreshold / 2)) with
floor division, and any RemoveToolCallParams directive carries
keepRecentCount equal to max(3, floor(toolCallThreshold / 2)); in both
cases the value is at least 3. -/
theorem keepRecentCount_floor (tokenCounts : Option TokenCounts)
    (messages : List Message) (config : Option Config) (k : Int) :
    (∀ p, EditStrategy.remove_tool_result k p ∈
        determineEditStrategies tokenCounts messages config →
      k = max 3 (Int.fdiv (effToolResultThreshold config) 2) ∧ 3 ≤ k) ∧
    (EditStrategy.remove_tool_call_params k ∈
        determineEditStrategies tokenCounts messages config →
      k = max 3 (Int.fdiv (effToolCallThreshold config) 2) ∧ 3 ≤ k) := by
  cases tokenCounts with
  | none =>
    constructor
    · intro p hp
      simp [determineEditStrategies] at hp
    · intro hp
      simp [determineEditStrategies] at hp
  | some tc =>
    rw [determineEditStrategies_some_eq]
    constructor
    · intro p hp
      split_ifs at hp <;> simp_all [keepRecent, le_max_left]
    · intro hp
      split_ifs at hp <;> simp_all [keepRecent, le_max_left]

/-- C7 witness: with toolResultThreshold = 2 (a small configuration) and a
triggering input, the carried keepRecentCount is max(3, floor(2/2)) = 3,
at least 3. -/
theorem keepRecentCount_floor_witness :
    (3 : Int) =
      max 3 (Int.fdiv
        (effToolResultThreshold (some ⟨none, none, some 2, none⟩)) 2) ∧
    (3 : Int) ≤ 3 :=
  (keepRecentCount_floor (some ⟨1000⟩)
    (List.replicate 3 ⟨"tool", ToolCallsField.absent⟩)
    (some ⟨none, none, some 2, none⟩) 3).1 "Done" (by decide)

/-- C8: the result is invariant under permutation of the message list —
the decision depends on the messages only through the tool-role message
count and the total tool-call count. -/
theorem perm_invariant (tokenCounts : Option TokenCounts)
    (config : Option Config) (messages messages2 : List Message)
    (h : messages.Perm messages2) :
    determineEditStrategies tokenCounts messages config =
      determineEditStrategies tokenCounts messages2 config := by
  cases tokenCounts with
  | none => rfl
  | some tc =>
    have hcalls : countToolCalls messages = countToolCalls messages2 := by
      rw [countToolCalls_eq_sum, countToolCalls_eq_sum]
      exact List.Perm.sum_eq (List.Perm.map _ h)
    have hresults :
        countToolResults messages = countToolResults messages2 := by
      rw [countToolResults_eq_filter, countToolResults_eq_filter]
      exact List.Perm.length_eq (List.Perm.filter _ h)
    rw [determineEditStrategies_some_eq, determineEditStrategies_some_eq,
      hcalls, hresults]

/-- C8 witness: swapping two concrete messages leaves the result
unchanged. -/
theorem perm_invariant_witness :
    determineEditStrategies (some ⟨1000⟩)
      [⟨"tool", ToolCallsField.absent⟩, ⟨"user", ToolCallsField.arr 2⟩]
      none =
    determineEditStrategies (some ⟨1000⟩)
      [⟨"user", ToolCallsField.arr 2⟩, ⟨"tool", ToolCallsField.absent⟩]
      none :=
  perm_invariant (some ⟨1000⟩) none _ _ (List.Perm.swap _ _ _)

/-- C9: the function is deterministic and stateless — it is a pure
function of its three arguments, so two calls on equal inputs return
equal outputs, with no hidden state. -/
theorem deterministic_pure (tc tc2 : Option TokenCounts)
    (m m2 : List Message) (c c2 : Option Config)
    (htc : tc = tc2) (hm : m = m2) (hc : c = c2) :
    determineEditStrategies tc m c = determineEditStrategies tc2 m2 c2 := by
  subst htc
  subst hm
  subst hc
  rfl

/-- C9 witness: two calls on identical concrete inputs agree. -/
theorem deterministic_pure_witness :
    determineEditStrategies (some ⟨1000⟩) [⟨"tool", ToolCallsField.absent⟩]
      none =
    determineEditStrategies (some ⟨1000⟩) [⟨"tool", ToolCallsField.absent⟩]
      none :=
  deterministic_pure (some ⟨1000⟩) (some ⟨1000⟩)
    [⟨"tool", ToolCallsField.absent⟩] [⟨"tool", ToolCallsField.absent⟩]
    none none rfl rfl rfl

/-- C10: a message whose toolCalls field is truthy but not an array adds
exactly 1 to toolCallCount, an array adds its length (an empty array adds
0), and an absent or falsy field adds 0. -/
theorem toolCalls_contribution (r : String) (n : Nat)
    (rest : List Message) :
    countToolCalls (⟨r, ToolCallsField.truthyNonArray⟩ :: rest) =
      1 + countToolCalls rest ∧
    countToolCalls (⟨r, ToolCallsField.arr n⟩ :: rest) =
      n + countToolCalls rest ∧
    countToolCalls (⟨r, ToolCallsField.arr 0⟩ :: rest) =
      countToolCalls rest ∧
    countToolCalls (⟨r, ToolCallsField.absent⟩ :: rest) =
      countToolCalls rest ∧
    countToolCalls (⟨r, ToolCallsField.falsy⟩ :: rest) =
      countToolCalls rest := by
  refine ⟨?_, ?_, ?_, ?_, ?_⟩ <;>
    simp [countToolCalls_cons, toolCallContribution]
